import Mathlib

/-!
Verification development for the flow-authoring-tool natural-language
command interpreter (`src/lib/ai-parser.ts`).

The interpreter is shallow-embedded: the JavaScript regular expressions used
by the rule-based classifier are transcribed into a small regex AST together
with a backtracking matcher reproducing the JS `String.prototype.match`
semantics restricted to the constructs the source actually uses (ordered
alternation, greedy/lazy quantifiers over character classes, optional groups,
capture groups, the `$` anchor, leftmost match).  The classifier
(`getEnhancedMockResponse`), the validator (`validateAndResolveCommand`) and
the remote-fallback wrapper (`parseAICommand`) are translated statement by
statement from the source.
-/

set_option maxRecDepth 100000

namespace FlowSpec

/-! ## Character classes appearing in the source regexes -/

/-- Character classes used by the parser's regexes: `.` (any char except a
line terminator), `\s`, `\d`, `[^"']`, and single literal characters. -/
inductive CC where
  | any
  | ws
  | digit
  | notQuote
  | lit (c : Char)
deriving Repr, DecidableEq

/-- JS line terminators (not matched by `.` without the `s` flag). -/
def isLineTerm (c : Char) : Bool :=
  c = '\n' || c = '\r' || c = '\u2028' || c = '\u2029'

/-- The common `\s` characters (ASCII whitespace range used by the inputs). -/
def isWsChar (c : Char) : Bool :=
  c = ' ' || c = '\t' || c = '\n' || c = '\r' || c = '\x0b' || c = '\x0c'

def isDigitChar (c : Char) : Bool := '0' ≤ c && c ≤ '9'

def CC.test : CC → Char → Bool
  | .any, c => !(isLineTerm c)
  | .ws, c => isWsChar c
  | .digit, c => isDigitChar c
  | .notQuote, c => !(c = '"' || c = '\'')
  | .lit a, c => a = c

/-! ## Regex AST and backtracking matcher -/

/-- Regex abstract syntax: exactly the constructs occurring in the source
patterns.  Quantifiers are restricted to character classes (every quantified
subexpression in the source is a single character class), except `opt` which
may wrap an arbitrary subexpression (`(?:a\s+)?`, `(?:\s+(?:node|step|state))?`). -/
inductive Re where
  | eps
  | cc (c : CC)
  | cat (a b : Re)
  | alt (a b : Re)
  | star (c : CC)
  | plus (c : CC)
  | plusLazy (c : CC)
  | opt (a : Re)
  | grp (i : Nat) (a : Re)
  | eos
deriving Repr

/-- Literal string as a regex (sequence of literal characters). -/
def Re.lits (s : String) : Re :=
  s.toList.foldr (fun c r => Re.cat (Re.cc (CC.lit c)) r) Re.eps

/-- Ordered alternation of a list of regexes (first alternative preferred,
as in JS). -/
def Re.alts : List Re → Re
  | [] => Re.eps
  | [r] => r
  | r :: rs => Re.alt r (Re.alts rs)

/-- Capture environment: group index to captured text. -/
abbrev Caps := List (Nat × String)

/-- Length of the maximal prefix run of characters satisfying the class. -/
def countRun (c : CC) : List Char → Nat
  | [] => 0
  | x :: s => if c.test x then countRun c s + 1 else 0

/-- The prefix of `s` consumed to reach the suffix `s'`. -/
def consumed (s s' : List Char) : String :=
  String.mk (s.take (s.length - s'.length))

/-- All ways the regex can match a prefix of `s`, in JS backtracking
preference order; each entry is the remaining suffix with the captures made.
The head of the list is the match JS would commit to. -/
def seqAll : Re → List Char → List (List Char × Caps)
  | .eps, s => [(s, [])]
  | .cc c, s =>
    match s with
    | [] => []
    | x :: rest => if c.test x then [(rest, [])] else []
  | .cat a b, s =>
    (seqAll a s).flatMap (fun p => (seqAll b p.1).map (fun q => (q.1, p.2 ++ q.2)))
  | .alt a b, s => seqAll a s ++ seqAll b s
  | .star c, s =>
    let k := countRun c s
    (List.range (k + 1)).reverse.map (fun i => (s.drop i, []))
  | .plus c, s =>
    let k := countRun c s
    (List.range k).reverse.map (fun i => (s.drop (i + 1), []))
  | .plusLazy c, s =>
    let k := countRun c s
    (List.range k).map (fun i => (s.drop (i + 1), []))
  | .opt a, s => seqAll a s ++ [(s, [])]
  | .grp i a, s =>
    (seqAll a s).map (fun p => (p.1, p.2 ++ [(i, consumed s p.1)]))
  | .eos, s => if s.isEmpty then [(s, [])] else []

/-- First match that JS would find when scanning start positions left to
right (unanchored search, as `String.prototype.match` without `g`). -/
def firstMatchFrom (re : Re) : List Char → Option Caps
  | [] => (seqAll re []).head?.map Prod.snd
  | s@(_ :: t) =>
    match (seqAll re s).head? with
    | some p => some p.2
    | none => firstMatchFrom re t

/-- `s.match(re)` returning the capture environment of the first match. -/
def jsMatch (re : Re) (s : String) : Option Caps :=
  firstMatchFrom re s.toList

/-- Boolean test: does the regex match somewhere in the string? -/
def reTest (re : Re) (s : String) : Bool :=
  (jsMatch re s).isSome

/-- `m[i]` of a JS match result (empty string when the group is absent;
every group read by the source participates in its match). -/
def capStr (caps : Caps) (i : Nat) : String :=
  (caps.lookup i).getD ""

/-! ## String helpers mirroring the JS operations -/

/-- `String.prototype.toLowerCase` (ASCII case mapping). -/
def toLowerStr (s : String) : String := String.mk (s.toList.map Char.toLower)

/-- `String.prototype.trim` (on the whitespace characters the inputs use). -/
def jsTrim (s : String) : String :=
  String.mk (((s.toList.dropWhile isWsChar).reverse.dropWhile isWsChar).reverse)

/-- Does `hay` start with `needle`? -/
def leadsWith : List Char → List Char → Bool
  | [], _ => true
  | _ :: _, [] => false
  | a :: p, b :: s => a = b && leadsWith p s

/-- Does `needle` occur as a contiguous run inside `s`? -/
def occursIn (needle : List Char) : List Char → Bool
  | [] => leadsWith needle []
  | s@(_ :: t) => leadsWith needle s || occursIn needle t

/-- `hay.includes(needle)` on JS strings. -/
def strIncludes (hay needle : String) : Bool :=
  occursIn needle.toList hay.toList

/-- `s.split(/\s+/)`: after the `.filter(t => t.length > …)` the source always
applies, splitting at each whitespace character is observably identical to
splitting at whitespace runs, so we split per character. -/
def splitWsAux : List Char → List Char → List String
  | [], acc => [String.mk acc.reverse]
  | c :: rest, acc =>
    if isWsChar c then String.mk acc.reverse :: splitWsAux rest []
    else splitWsAux rest (c :: acc)

def jsSplitWs (s : String) : List String :=
  splitWsAux s.toList []

/-- `parseInt` on an all-digit capture. -/
def parseIntDigits (s : String) : Nat :=
  s.toList.foldl (fun n c => n * 10 + (c.toNat - '0'.toNat)) 0

/-- JS array indexing `l[i]`: `undefined` (here `none`) for a negative or
out-of-range index. -/
def jsIndex (l : List α) (i : Int) : Option α :=
  if i < 0 then none else l.get? i.toNat

/-! ## Data model (src/types/flow.ts and the node view of src/lib/ai-parser.ts) -/

/-- The node view handed to the interpreter: `{ id, label, index }`. -/
structure NodeRec where
  id : String
  label : String
  index : Nat
deriving Repr, DecidableEq

/-- The `type` field of `AICommand`. -/
inductive CmdType where
  | add_node
  | delete_node
  | update_node
  | connect_nodes
  | disconnect_nodes
  | explain
  | unknown
deriving Repr, DecidableEq

/-- `AICommand` from src/types/flow.ts: a `type` tag plus optional fields. -/
structure AICommand where
  type : CmdType
  nodeId : Option String := none
  nodeLabel : Option String := none
  sourceNodeId : Option String := none
  targetNodeId : Option String := none
  edgeId : Option String := none
  message : Option String := none
deriving Repr, DecidableEq

/-! ## The source regexes (getEnhancedMockResponse) -/

/-- `(?:node|step|state)` -/
def noun : Re := Re.alts [Re.lits "node", Re.lits "step", Re.lits "state"]

/-- A single quote character, the class `["']`. -/
def qm : Re := Re.alt (Re.cc (CC.lit '"')) (Re.cc (CC.lit '\''))

/-- `["']?` -/
def qOpt : Re := Re.opt qm

/-- `["']?([^"']+)["']?`, the optionally quoted capture tail shared by several
extraction patterns. -/
def captTail : Re := Re.cat qOpt (Re.cat (Re.grp 1 (Re.plus CC.notQuote)) qOpt)

/-- `["']([^"']+)["']` (lines 212, 244, 297). -/
def quotedRe : Re := Re.cat qm (Re.cat (Re.grp 1 (Re.plus CC.notQuote)) qm)

/-- `(add|create|new|make|insert).*(node|step|state)` (line 208). -/
def addTrigger : Re :=
  Re.cat
    (Re.grp 1 (Re.alts [Re.lits "add", Re.lits "create", Re.lits "new",
      Re.lits "make", Re.lits "insert"]))
    (Re.cat (Re.star CC.any) (Re.grp 2 noun))

/-- `(?:called|named|with.*label|that.*says|saying|with.*text)\s+["']?([^"']+)["']?`
(line 209). -/
def addLabelRe1 : Re :=
  Re.cat
    (Re.alts [Re.lits "called", Re.lits "named",
      Re.cat (Re.lits "with") (Re.cat (Re.star CC.any) (Re.lits "label")),
      Re.cat (Re.lits "that") (Re.cat (Re.star CC.any) (Re.lits "says")),
      Re.lits "saying",
      Re.cat (Re.lits "with") (Re.cat (Re.star CC.any) (Re.lits "text"))])
    (Re.cat (Re.plus CC.ws) captTail)

/-- `(?:node|step|state)\s+(?:called|named)\s+["']?([^"']+)["']?` (line 210). -/
def addLabelRe2 : Re :=
  Re.cat noun (Re.cat (Re.plus CC.ws)
    (Re.cat (Re.alts [Re.lits "called", Re.lits "named"])
      (Re.cat (Re.plus CC.ws) captTail)))

/-- `(?:add|create|new|make)\s+(?:a\s+)?(?:node|step|state)\s+["']?([^"']+)["']?`
(line 211). -/
def addLabelRe3 : Re :=
  Re.cat (Re.alts [Re.lits "add", Re.lits "create", Re.lits "new", Re.lits "make"])
    (Re.cat (Re.plus CC.ws)
      (Re.cat (Re.opt (Re.cat (Re.lits "a") (Re.plus CC.ws)))
        (Re.cat noun (Re.cat (Re.plus CC.ws) captTail))))

/-- `(delete|remove|drop|eliminate|get rid of).*(node|step|state)` (line 223). -/
def deleteTrigger : Re :=
  Re.cat
    (Re.grp 1 (Re.alts [Re.lits "delete", Re.lits "remove", Re.lits "drop",
      Re.lits "eliminate", Re.lits "get rid of"]))
    (Re.cat (Re.star CC.any) (Re.grp 2 noun))

/-- `(?:node|step|state)\s*(\d+)` (lines 225, 295). -/
def nounNumRe : Re :=
  Re.cat noun (Re.cat (Re.star CC.ws) (Re.grp 1 (Re.plus CC.digit)))

/-- `(\d+)(?:\s|$)` (line 226). -/
def numEndRe : Re :=
  Re.cat (Re.grp 1 (Re.plus CC.digit)) (Re.alt (Re.cc CC.ws) Re.eos)

/-- `(?:the|a|an)\s+["']?([^"']+?)(?:\s+(?:node|step|state))?["']?$` (line 242). -/
def delLabelRe1 : Re :=
  Re.cat (Re.alts [Re.lits "the", Re.lits "a", Re.lits "an"])
    (Re.cat (Re.plus CC.ws)
      (Re.cat qOpt
        (Re.cat (Re.grp 1 (Re.plusLazy CC.notQuote))
          (Re.cat (Re.opt (Re.cat (Re.plus CC.ws) noun)) (Re.cat qOpt Re.eos)))))

/-- `(?:node|step|state)\s+["']?([^"']+)["']?` (line 243). -/
def delLabelRe2 : Re :=
  Re.cat noun (Re.cat (Re.plus CC.ws) captTail)

/-- `(update|change|edit|modify|rename).*(node|step|state)` (line 294). -/
def updateTrigger : Re :=
  Re.cat
    (Re.grp 1 (Re.alts [Re.lits "update", Re.lits "change", Re.lits "edit",
      Re.lits "modify", Re.lits "rename"]))
    (Re.cat (Re.star CC.any) (Re.grp 2 noun))

/-- `(?:to|say|says|with|as|named|called)\s+["']?([^"']+)["']?` (line 296). -/
def updLabelRe1 : Re :=
  Re.cat
    (Re.alts [Re.lits "to", Re.lits "say", Re.lits "says", Re.lits "with",
      Re.lits "as", Re.lits "named", Re.lits "called"])
    (Re.cat (Re.plus CC.ws) captTail)

/-- `(connect|link|join|attach).*(node|step|state)` (line 320). -/
def connectTrigger : Re :=
  Re.cat
    (Re.grp 1 (Re.alts [Re.lits "connect", Re.lits "link", Re.lits "join",
      Re.lits "attach"]))
    (Re.cat (Re.star CC.any) (Re.grp 2 noun))

/-- `(?:node|step|state)\s*(\d+).*(?:node|step|state)\s*(\d+)` (lines 321, 347). -/
def nounPairRe : Re :=
  Re.cat noun (Re.cat (Re.star CC.ws)
    (Re.cat (Re.grp 1 (Re.plus CC.digit))
      (Re.cat (Re.star CC.any)
        (Re.cat noun (Re.cat (Re.star CC.ws) (Re.grp 2 (Re.plus CC.digit)))))))

/-- `(\d+).*(\d+)` (lines 322, 348). -/
def numPairRe : Re :=
  Re.cat (Re.grp 1 (Re.plus CC.digit))
    (Re.cat (Re.star CC.any) (Re.grp 2 (Re.plus CC.digit)))

/-- `(disconnect|unlink|remove.*connection|delete.*edge|break.*connection)`
(line 346). -/
def disconnectTrigger : Re :=
  Re.grp 1 (Re.alts [Re.lits "disconnect", Re.lits "unlink",
    Re.cat (Re.lits "remove") (Re.cat (Re.star CC.any) (Re.lits "connection")),
    Re.cat (Re.lits "delete") (Re.cat (Re.star CC.any) (Re.lits "edge")),
    Re.cat (Re.lits "break") (Re.cat (Re.star CC.any) (Re.lits "connection"))])

/-- `(explain|describe|what|how|tell.*about|show.*me|what.*does|what.*is)`
(line 372). -/
def explainTrigger : Re :=
  Re.grp 1 (Re.alts [Re.lits "explain", Re.lits "describe", Re.lits "what",
    Re.lits "how",
    Re.cat (Re.lits "tell") (Re.cat (Re.star CC.any) (Re.lits "about")),
    Re.cat (Re.lits "show") (Re.cat (Re.star CC.any) (Re.lits "me")),
    Re.cat (Re.lits "what") (Re.cat (Re.star CC.any) (Re.lits "does")),
    Re.cat (Re.lits "what") (Re.cat (Re.star CC.any) (Re.lits "is"))])

/-! ## Rule-based classifier (getEnhancedMockResponse, lines 201-394) -/

/-- Line 252: the common words removed from search terms. -/
def stopWords : List String :=
  ["the", "a", "an", "node", "step", "state", "nodes", "steps", "states"]

/-- The ordinal lookup idiom `nodes[n - 1]` (lines 230, 301, 327-328,
353-354): node at 0-based index `n - 1`, `none` when out of range. -/
def resolveByOrdinal (n : Int) (nodes : List NodeRec) : Option NodeRec :=
  jsIndex nodes (n - 1)

/-- Lines 248-277 without the exact-label comparison of line 258: tokenize
the search label, drop stop words (falling back to the raw token list when
every token was a stop word, line 255), tier 1 finds the first node whose
label contains all final terms, tier 2 the first node whose label contains
any final term of length > 2. -/
def resolveByFuzzyLabel (searchLabel : String) (nodes : List NodeRec) : Option NodeRec :=
  let searchTerms := (jsSplitWs searchLabel).filter (fun t => t.length > 0)
  let filteredTerms := searchTerms.filter (fun t => !(stopWords.contains t))
  let finalTerms := if filteredTerms.length > 0 then filteredTerms else searchTerms
  let tier1 :=
    if finalTerms.length > 0 then
      nodes.find? (fun n => finalTerms.all (fun term => strIncludes (toLowerStr n.label) term))
    else none
  match tier1 with
  | some n => some n
  | none =>
    if finalTerms.length > 0 then
      let significantTerms := finalTerms.filter (fun t => t.length > 2)
      if significantTerms.length > 0 then
        nodes.find? (fun n => significantTerms.any (fun term => strIncludes (toLowerStr n.label) term))
      else none
    else none

/-- Lines 207-220: the add detector body. -/
def addBranch (input : String) (nodes : List NodeRec) : AICommand :=
  let labelMatch := jsMatch addLabelRe1 input <|> jsMatch addLabelRe2 input <|>
    jsMatch addLabelRe3 input <|> jsMatch quotedRe input
  let label :=
    match labelMatch with
    | some caps => jsTrim (capStr caps 1)
    | none => "Node " ++ toString (nodes.length + 1)
  { type := .add_node, nodeLabel := some label }

/-- Lines 287-290: the delete detector's not-found result. -/
def deleteNotFound (nodes : List NodeRec) : AICommand :=
  { type := .unknown,
    message := some ("Could not find the node to delete. Available nodes: " ++
      (if nodes.length > 0 then
        String.intercalate ", "
          (nodes.enum.map (fun p => toString (p.1 + 1) ++ ". \"" ++ p.2.label ++ "\""))
      else "none")) }

/-- Lines 222-291: the delete detector body. -/
def deleteBranch (input : String) (nodes : List NodeRec) : AICommand :=
  let byNum : Option AICommand :=
    match jsMatch nounNumRe input <|> jsMatch numEndRe input with
    | some caps =>
      (resolveByOrdinal (parseIntDigits (capStr caps 1) : Int) nodes).map
        (fun node => { type := .delete_node, nodeId := some node.id : AICommand })
    | none => none
  match byNum with
  | some c => c
  | none =>
    match jsMatch delLabelRe1 input <|> jsMatch delLabelRe2 input <|> jsMatch quotedRe input with
    | some caps =>
      let searchLabel := toLowerStr (jsTrim (capStr caps 1))
      match nodes.find? (fun n => toLowerStr n.label == searchLabel) with
      | some node => { type := .delete_node, nodeId := some node.id }
      | none =>
        match resolveByFuzzyLabel searchLabel nodes with
        | some node => { type := .delete_node, nodeId := some node.id }
        | none => deleteNotFound nodes
    | none => deleteNotFound nodes

/-- Lines 293-317: the update detector body. -/
def updateBranch (input : String) (nodes : List NodeRec) : AICommand :=
  let ok : Option AICommand :=
    match jsMatch nounNumRe input, jsMatch updLabelRe1 input <|> jsMatch quotedRe input with
    | some ci, some cl =>
      (resolveByOrdinal (parseIntDigits (capStr ci 1) : Int) nodes).map
        (fun node =>
          { type := .update_node, nodeId := some node.id,
            nodeLabel := some (jsTrim (capStr cl 1)) : AICommand })
    | _, _ => none
  match ok with
  | some c => c
  | none =>
    { type := .unknown,
      message := some "Could not parse update command. Format: \"Update node 1 to say Welcome\"" }

/-- Lines 319-343: the connect detector body. -/
def connectBranch (input : String) (nodes : List NodeRec) : AICommand :=
  let ok : Option AICommand :=
    match jsMatch nounPairRe input <|> jsMatch numPairRe input with
    | some caps =>
      match resolveByOrdinal (parseIntDigits (capStr caps 1) : Int) nodes,
            resolveByOrdinal (parseIntDigits (capStr caps 2) : Int) nodes with
      | some s, some t =>
        some { type := .connect_nodes, sourceNodeId := some s.id,
               targetNodeId := some t.id : AICommand }
      | _, _ => none
    | none => none
  match ok with
  | some c => c
  | none =>
    { type := .unknown,
      message := some "Could not find the nodes to connect. Format: \"Connect node 1 to node 2\"" }

/-- Lines 345-369: the disconnect detector body. -/
def disconnectBranch (input : String) (nodes : List NodeRec) : AICommand :=
  let ok : Option AICommand :=
    match jsMatch nounPairRe input <|> jsMatch numPairRe input with
    | some caps =>
      match resolveByOrdinal (parseIntDigits (capStr caps 1) : Int) nodes,
            resolveByOrdinal (parseIntDigits (capStr caps 2) : Int) nodes with
      | some s, some t =>
        some { type := .disconnect_nodes, sourceNodeId := some s.id,
               targetNodeId := some t.id : AICommand }
      | _, _ => none
    | none => none
  match ok with
  | some c => c
  | none =>
    { type := .unknown, message := some "Could not find the nodes to disconnect." }

/-- Lines 371-387: the explain detector body. -/
def explainBranch (nodes : List NodeRec) : AICommand :=
  if nodes.length == 0 then
    { type := .explain,
      message := some "The flow is currently empty. Add some nodes to get started!" }
  else
    { type := .explain,
      message := some ("Current flow structure:\n\nNodes:\n" ++
        String.intercalate "\n"
          (nodes.enum.map (fun p => toString (p.1 + 1) ++ ". \"" ++ p.2.label ++ "\"")) ++
        "\n\nTotal: " ++ toString nodes.length ++ " node(s)") }

/-- Lines 389-393: the final fallback. -/
def defaultUnknown : AICommand :=
  { type := .unknown,
    message := some "I didn't understand that command. Try: \"Add a node called X\", \"Delete node 1\", \"Delete the end call node\", \"Connect node 1 to node 2\", or \"Update node 1 to say Y\"" }

/-- The detector cascade of lines 207-393, applied to the already
lower-cased and trimmed input. -/
def mockDispatch (input : String) (nodes : List NodeRec) : AICommand :=
  if reTest addTrigger input then addBranch input nodes
  else if reTest deleteTrigger input then deleteBranch input nodes
  else if reTest updateTrigger input then updateBranch input nodes
  else if reTest connectTrigger input then connectBranch input nodes
  else if reTest disconnectTrigger input then disconnectBranch input nodes
  else if reTest explainTrigger input then explainBranch nodes
  else defaultUnknown

/-- `getEnhancedMockResponse(userInput, nodes)` (lines 201-394); line 205
lower-cases and trims the input before the detector cascade runs. -/
def getEnhancedMockResponse (userInput : String) (nodes : List NodeRec) : AICommand :=
  mockDispatch (jsTrim (toLowerStr userInput)) nodes

/-! ## Validator (validateAndResolveCommand, lines 133-196) -/

/-- JS truthiness of an optional string field (absent or empty is falsy). -/
def truthy : Option String → Bool
  | none => false
  | some s => s != ""

/-- Lines 142-164: the label lookup cascade for a `delete_node`/`update_node`
reference that is not a known id: exact lower-cased label, then a node label
containing all whitespace-split search terms, then a node label containing
any search term of length > 2. -/
def validatorLabelLookup (nid : String) (nodes : List NodeRec) : Option NodeRec :=
  match nodes.find? (fun n => toLowerStr n.label == toLowerStr nid) with
  | some n => some n
  | none =>
    let searchTerms := (jsSplitWs (toLowerStr nid)).filter (fun t => t.length > 0)
    match nodes.find? (fun n => searchTerms.all (fun term => strIncludes (toLowerStr n.label) term)) with
    | some n => some n
    | none =>
      let sigTerms := (jsSplitWs (toLowerStr nid)).filter (fun t => t.length > 2)
      nodes.find? (fun n => sigTerms.any (fun term => strIncludes (toLowerStr n.label) term))

/-- The line 171 diagnostic. -/
def notFoundMsg (nid : String) (nodes : List NodeRec) : String :=
  "Node \"" ++ nid ++ "\" not found. Available nodes: " ++
    String.intercalate ", " (nodes.map (fun n => "\"" ++ n.label ++ "\""))

/-- Lines 180-181: a connect/disconnect reference resolves only by known id
or by case-sensitive exact label. -/
def connFind (raw : String) (nodes : List NodeRec) : Option NodeRec :=
  nodes.find? (fun n => n.id == raw || n.label == raw)

/-- `validateAndResolveCommand(command, nodes)` (lines 133-196).  Both
guarded blocks run only when the referenced fields are truthy, exactly as in
the source. -/
def validateAndResolveCommand (command : AICommand) (nodes : List NodeRec) : AICommand :=
  if (command.type = .delete_node ∨ command.type = .update_node) ∧ truthy command.nodeId then
    let nid := command.nodeId.getD ""
    match nodes.find? (fun n => n.id == nid) with
    | some _ => command
    | none =>
      match validatorLabelLookup nid nodes with
      | some n => { command with nodeId := some n.id }
      | none => { type := .unknown, message := some (notFoundMsg nid nodes) }
  else if command.type = .connect_nodes ∨ command.type = .disconnect_nodes then
    if truthy command.sourceNodeId ∧ truthy command.targetNodeId then
      match connFind (command.sourceNodeId.getD "") nodes,
            connFind (command.targetNodeId.getD "") nodes with
      | some s, some t =>
        { command with sourceNodeId := some s.id, targetNodeId := some t.id }
      | _, _ =>
        { type := .unknown,
          message := some "Could not find one or both nodes to connect/disconnect." }
    else command
  else command

/-! ## Remote attempt wrapper (parseAICommand, lines 7-128) -/

/-- Outcome of the remote interpreter attempt as observed by
`parseAICommand`: `noApiKey` is the missing credential (line 15);
`fetchThrew` a rejected network call (caught at line 122); `apiNotSuccess`
a `success: false` API answer or an unreadable response body (lines 83-88,
thrown then caught at line 122); `unusableShape` a response `data` in none
of the recognized shapes (line 103); `jsonParseFailed` a `JSON.parse` throw
(line 118, caught at line 122); `parsed` a successfully extracted draft
command (line 118). -/
inductive RemoteOutcome where
  | noApiKey
  | fetchThrew
  | apiNotSuccess
  | unusableShape
  | jsonParseFailed
  | parsed (command : AICommand)
deriving Repr, DecidableEq

/-- `parseAICommand(userInput, nodes)` as a function of the remote outcome:
every failure path returns the rule-based classifier's result on the same
arguments (lines 16, 103, 126), and a parsed draft goes through
`validateAndResolveCommand` (line 121). -/
def parseAICommand (outcome : RemoteOutcome) (userInput : String)
    (nodes : List NodeRec) : AICommand :=
  match outcome with
  | .noApiKey => getEnhancedMockResponse userInput nodes
  | .fetchThrew => getEnhancedMockResponse userInput nodes
  | .apiNotSuccess => getEnhancedMockResponse userInput nodes
  | .unusableShape => getEnhancedMockResponse userInput nodes
  | .jsonParseFailed => getEnhancedMockResponse userInput nodes
  | .parsed command => validateAndResolveCommand command nodes

/-- The two-node list used by the spec's worked examples. -/
def demoNodes : List NodeRec :=
  [{ id := "n1", label := "Start", index := 0 },
   { id := "n2", label := "End Call", index := 1 }]

/-- A two-node list whose second label contains the digit 5, exercising the
ordinal fall-through of the delete detector. -/
def phaseNodes : List NodeRec :=
  [{ id := "a", label := "Start", index := 0 },
   { id := "b", label := "Phase 5", index := 1 }]

/-- A one-node list whose label shares no text with any stop word. -/
def zzzNodes : List NodeRec :=
  [{ id := "x", label := "zzz", index := 0 }]

/-- A one-node list for the case-sensitivity comparison. -/
def startNodes : List NodeRec :=
  [{ id := "n1", label := "Start", index := 0 }]

/-! ## Definitions written from the spec's words, for refinement comparison -/

/-- The fuzzy resolution exactly as the claim describes it: tokenize the
search text on whitespace, discard the stop-list, tier 1 is the first node
whose lower-cased label contains every remaining token, tier 2 (only if tier
1 yields nothing) the first node whose label contains any remaining token of
length > 2.  Written from the spec's words alone, to be compared with the
source's `resolveByFuzzyLabel`. -/
def resolveByFuzzyLabelSpec (text : String) (nodes : List NodeRec) : Option NodeRec :=
  let remaining := ((jsSplitWs text).filter (fun t => t.length > 0)).filter
    (fun t => !(stopWords.contains t))
  match nodes.find? (fun n => remaining.all (fun tok => strIncludes (toLowerStr n.label) tok)) with
  | some n => some n
  | none =>
    nodes.find? (fun n => (remaining.filter (fun t => t.length > 2)).any
      (fun tok => strIncludes (toLowerStr n.label) tok))

/-- The `resolveReference` cascade exactly as the claim describes it: known
id first, then case-insensitive exact label, then the fuzzy tiers.  Written
from the spec's words alone, to be compared with the source's
connect/disconnect lookup `connFind`. -/
def resolveReferenceSpec (raw : String) (nodes : List NodeRec) : Option NodeRec :=
  match nodes.find? (fun n => n.id == raw) with
  | some n => some n
  | none =>
    match nodes.find? (fun n => toLowerStr n.label == toLowerStr raw) with
    | some n => some n
    | none => resolveByFuzzyLabelSpec raw nodes

/-- The amended description of the source's fuzzy lookup: as the claim says,
but when discarding stop words removes every token the original token list
is used instead, and with no tokens at all the result is NotFound. -/
def resolveByFuzzyLabelAmended (text : String) (nodes : List NodeRec) : Option NodeRec :=
  let tokens := (jsSplitWs text).filter (fun t => t.length > 0)
  let kept := tokens.filter (fun t => !(stopWords.contains t))
  let remaining := if kept.length > 0 then kept else tokens
  if remaining.length > 0 then
    match nodes.find? (fun n => remaining.all (fun tok => strIncludes (toLowerStr n.label) tok)) with
    | some n => some n
    | none =>
      let significant := remaining.filter (fun t => t.length > 2)
      if significant.length > 0 then
        nodes.find? (fun n => significant.any (fun tok => strIncludes (toLowerStr n.label) tok))
      else none
  else none

/-! ## Shared helper lemmas -/

/-- A truthy optional string field is a non-empty `some`. -/
theorem truthy_iff (o : Option String) :
    truthy o = true ↔ ∃ s, o = some s ∧ s ≠ "" := by
  cases o with
  | none => simp [truthy]
  | some s => simp [truthy]

/-- A node produced by the validator's label cascade is in the node list. -/
theorem validatorLabelLookup_mem {nid : String} {nodes : List NodeRec} {n : NodeRec}
    (h : validatorLabelLookup nid nodes = some n) : n ∈ nodes := by
  unfold validatorLabelLookup at h
  split at h
  · rename_i m heq
    cases h
    exact List.mem_of_find?_eq_some heq
  · dsimp only at h
    split at h
    · rename_i m heq
      cases h
      exact List.mem_of_find?_eq_some heq
    · exact List.mem_of_find?_eq_some h

/-- A node produced by the connect/disconnect lookup is in the node list. -/
theorem connFind_mem {raw : String} {nodes : List NodeRec} {n : NodeRec}
    (h : connFind raw nodes = some n) : n ∈ nodes :=
  List.mem_of_find?_eq_some h

/-- The add detector always emits `add_node` with a present label. -/
theorem addBranch_shape (input : String) (nodes : List NodeRec) :
    (addBranch input nodes).type = CmdType.add_node ∧
    (addBranch input nodes).nodeLabel ≠ none := by
  unfold addBranch
  exact ⟨rfl, by simp⟩

/-- The delete detector emits only `delete_node` or `unknown`. -/
theorem deleteBranch_type (input : String) (nodes : List NodeRec) :
    (deleteBranch input nodes).type = CmdType.delete_node ∨
    (deleteBranch input nodes).type = CmdType.unknown := by
  unfold deleteBranch
  try dsimp only
  split
  · rename_i c heq
    split at heq
    · rw [Option.map_eq_some'] at heq
      obtain ⟨node, -, hc⟩ := heq
      left
      rw [← hc]
    · cases heq
  · split
    · try dsimp only
      split
      · left; rfl
      · split
        · left; rfl
        · right; rfl
    · right; rfl

/-- The update detector emits only `update_node` or `unknown`. -/
theorem updateBranch_type (input : String) (nodes : List NodeRec) :
    (updateBranch input nodes).type = CmdType.update_node ∨
    (updateBranch input nodes).type = CmdType.unknown := by
  unfold updateBranch
  try dsimp only
  split
  · rename_i c heq
    split at heq
    · rw [Option.map_eq_some'] at heq
      obtain ⟨node, -, hc⟩ := heq
      left
      rw [← hc]
    · cases heq
  · right; rfl

/-- The connect detector emits only `connect_nodes` or `unknown`. -/
theorem connectBranch_type (input : String) (nodes : List NodeRec) :
    (connectBranch input nodes).type = CmdType.connect_nodes ∨
    (connectBranch input nodes).type = CmdType.unknown := by
  unfold connectBranch
  try dsimp only
  split
  · rename_i c heq
    split at heq
    · split at heq
      · cases heq
        left; rfl
      · cases heq
    · cases heq
  · right; rfl

/-- The disconnect detector emits only `disconnect_nodes` or `unknown`. -/
theorem disconnectBranch_type (input : String) (nodes : List NodeRec) :
    (disconnectBranch input nodes).type = CmdType.disconnect_nodes ∨
    (disconnectBranch input nodes).type = CmdType.unknown := by
  unfold disconnectBranch
  try dsimp only
  split
  · rename_i c heq
    split at heq
    · split at heq
      · cases heq
        left; rfl
      · cases heq
    · cases heq
  · right; rfl

/-- The explain detector always emits `explain`. -/
theorem explainBranch_type (nodes : List NodeRec) :
    (explainBranch nodes).type = CmdType.explain := by
  unfold explainBranch
  split <;> rfl

/-! ## Claim theorems -/

/-- C1: Totality of the rule-based interpreter: for every input string and
every node list (including the empty list) the classifier returns exactly
one of the seven command variants; being a total Lean function over total
string and list operations, it never throws. -/
theorem C1_interpreter_total (input : String) (nodes : List NodeRec) :
    (getEnhancedMockResponse input nodes).type ∈
      [CmdType.add_node, CmdType.delete_node, CmdType.update_node,
       CmdType.connect_nodes, CmdType.disconnect_nodes, CmdType.explain,
       CmdType.unknown] := by
  cases (getEnhancedMockResponse input nodes).type <;> simp

/-- C3: Mandatory remote fallback: on every failing remote outcome the
wrapper returns exactly the rule-based classifier's result on the same input
and node list, and behaves identically to the remote collaborator not being
configured at all. -/
theorem C3_remote_fallback (outcome : RemoteOutcome)
    (h : ∀ c, outcome ≠ RemoteOutcome.parsed c)
    (input : String) (nodes : List NodeRec) :
    parseAICommand outcome input nodes = getEnhancedMockResponse input nodes ∧
    parseAICommand outcome input nodes =
      parseAICommand RemoteOutcome.noApiKey input nodes := by
  cases outcome
  case parsed c => exact absurd rfl (h c)
  all_goals exact ⟨rfl, rfl⟩

/-- C3 witness: a concrete network failure falls back to the classifier. -/
theorem C3_remote_fallback_witness :
    parseAICommand RemoteOutcome.fetchThrew "connect node 1 to node 2" demoNodes =
      getEnhancedMockResponse "connect node 1 to node 2" demoNodes ∧
    parseAICommand RemoteOutcome.fetchThrew "connect node 1 to node 2" demoNodes =
      parseAICommand RemoteOutcome.noApiKey "connect node 1 to node 2" demoNodes :=
  C3_remote_fallback RemoteOutcome.fetchThrew
    (fun _ h => RemoteOutcome.noConfusion h) "connect node 1 to node 2" demoNodes

/-- C6 counterexample: the input "remove the connection between node 1 and
node 2" matches both the delete detector's trigger and the disconnect
detector's trigger, refuting the claimed non-overlap of the two patterns. -/
theorem C6_counterexample :
    reTest deleteTrigger "remove the connection between node 1 and node 2" = true ∧
    reTest disconnectTrigger "remove the connection between node 1 and node 2" = true :=
  ⟨rfl, rfl⟩

/-- C6 (amended): the delete and disconnect triggers are not disjoint, and
classification of overlapping phrasing is decided by detector order: the
earlier delete detector wins, so this disconnect-style request deletes
node 1 of the two-node list. -/
theorem C6_trigger_overlap :
    reTest deleteTrigger "remove the connection between node 1 and node 2" = true ∧
    reTest disconnectTrigger "remove the connection between node 1 and node 2" = true ∧
    getEnhancedMockResponse "remove the connection between node 1 and node 2" demoNodes =
      { type := CmdType.delete_node, nodeId := some "n1" } :=
  ⟨rfl, rfl, by decide⟩

/-- C10: an out-of-range ordinal in a delete input falls through to label
matching: "delete node 5" against a 2-node list whose second label contains
the digit 5 deletes that node instead of reporting not-found. -/
theorem C10_ordinal_fallthrough :
    getEnhancedMockResponse "delete node 5" phaseNodes =
      { type := CmdType.delete_node, nodeId := some "b" } ∧
    phaseNodes.length = 2 :=
  ⟨by decide, rfl⟩

/-- C9 counterexample: the classifier lower-cases the whole input before
extracting labels, so "add a node called Hello" yields the label "hello",
not the claimed "Hello". -/
theorem C9_counterexample :
    (getEnhancedMockResponse "add a node called Hello" []).nodeLabel = some "hello" ∧
    ("hello" : String) ≠ "Hello" :=
  ⟨by decide, by decide⟩

/-- C9 (amended): an explicit label phrase is carried through lower-cased
("add a node called Hello" yields label "hello"); an add intent with no
label phrase synthesizes "Node {count+1}" from the current node count; and
the classifier never emits `add_node` without a label. -/
theorem C9_add_labeling :
    getEnhancedMockResponse "add a node called Hello" [] =
      { type := CmdType.add_node, nodeLabel := some "hello" } ∧
    getEnhancedMockResponse "add a node" demoNodes =
      { type := CmdType.add_node, nodeLabel := some "Node 3" } ∧
    ∀ (input : String) (nodes : List NodeRec),
      (getEnhancedMockResponse input nodes).type = CmdType.add_node →
      (getEnhancedMockResponse input nodes).nodeLabel ≠ none := by
  refine ⟨by decide, by decide, ?_⟩
  intro input nodes h
  unfold getEnhancedMockResponse mockDispatch at h ⊢
  split_ifs at h ⊢ with h1 h2 h3 h4 h5 h6
  · exact (addBranch_shape _ nodes).2
  · rcases deleteBranch_type (jsTrim (toLowerStr input)) nodes with ht | ht <;>
      rw [h] at ht <;> cases ht
  · rcases updateBranch_type (jsTrim (toLowerStr input)) nodes with ht | ht <;>
      rw [h] at ht <;> cases ht
  · rcases connectBranch_type (jsTrim (toLowerStr input)) nodes with ht | ht <;>
      rw [h] at ht <;> cases ht
  · rcases disconnectBranch_type (jsTrim (toLowerStr input)) nodes with ht | ht <;>
      rw [h] at ht <;> cases ht
  · have ht := explainBranch_type nodes
    rw [h] at ht
    cases ht
  · exact absurd h (by decide)

/-- C9 witness: a concrete add intent carries a present label. -/
theorem C9_add_labeling_witness :
    (getEnhancedMockResponse "add a node" []).nodeLabel ≠ none :=
  C9_add_labeling.2.2 "add a node" [] (by decide)

/-- C7: ordinal resolution returns the node at 0-based index n−1 exactly for
1 ≤ n ≤ len(nodes), NotFound for n = 0, n > len(nodes) and negative n; and
the worked ordinal-connect example resolves both ordinals to canonical ids. -/
theorem C7_ordinal_resolution :
    (∀ (n : Int) (nodes : List NodeRec),
      (1 ≤ n → n ≤ (nodes.length : Int) →
        ∃ x, nodes.get? (n - 1).toNat = some x ∧ resolveByOrdinal n nodes = some x) ∧
      (n = 0 ∨ (nodes.length : Int) < n ∨ n < 0 → resolveByOrdinal n nodes = none)) ∧
    getEnhancedMockResponse "connect node 1 to node 2" demoNodes =
      { type := CmdType.connect_nodes, sourceNodeId := some "n1",
        targetNodeId := some "n2" } := by
  constructor
  · intro n nodes
    constructor
    · intro h1 h2
      have hlt : (n - 1).toNat < nodes.length := by omega
      refine ⟨nodes.get ⟨(n - 1).toNat, hlt⟩, List.get?_eq_get hlt, ?_⟩
      unfold resolveByOrdinal jsIndex
      rw [if_neg (by omega)]
      exact List.get?_eq_get hlt
    · intro h
      unfold resolveByOrdinal jsIndex
      rcases h with h | h | h
      · rw [if_pos (by omega)]
      · rw [if_neg (by omega)]
        exact List.get?_eq_none.mpr (by omega)
      · rw [if_pos (by omega)]
  · decide

/-- C7 witness: ordinal 2 resolves to the second demo node. -/
theorem C7_ordinal_resolution_witness :
    ∃ x, demoNodes.get? (((2 : Int) - 1).toNat) = some x ∧
      resolveByOrdinal 2 demoNodes = some x :=
  (C7_ordinal_resolution.1 2 demoNodes).1 (by decide) (by decide)

/-- C8: a delete/update draft carrying a non-empty reference that resolves
to no node (neither as id nor through the label cascade) is replaced by
`unknown` with the exact line-171 diagnostic; the diagnostic's concrete form
quotes every available label; and the classifier's own not-found example
"delete node 5" produces an unknown message listing both labels. -/
theorem C8_not_found_path :
    (∀ (command : AICommand) (nodes : List NodeRec) (nid : String),
      (command.type = CmdType.delete_node ∨ command.type = CmdType.update_node) →
      command.nodeId = some nid → nid ≠ "" →
      nodes.find? (fun n => n.id == nid) = none →
      validatorLabelLookup nid nodes = none →
      validateAndResolveCommand command nodes =
        { type := CmdType.unknown, message := some (notFoundMsg nid nodes) }) ∧
    notFoundMsg "5" demoNodes =
      "Node \"5\" not found. Available nodes: \"Start\", \"End Call\"" ∧
    getEnhancedMockResponse "delete node 5" demoNodes =
      { type := CmdType.unknown,
        message := some "Could not find the node to delete. Available nodes: 1. \"Start\", 2. \"End Call\"" } := by
  refine ⟨?_, by decide, by decide⟩
  intro command nodes nid htype hnid hne hfind hlook
  have htr : truthy command.nodeId = true := by
    rw [hnid]
    simpa [truthy] using hne
  unfold validateAndResolveCommand
  rw [if_pos ⟨htype, htr⟩]
  simp only [hnid, Option.getD_some]
  rw [hfind, hlook]

/-- C8 witness: an update draft referencing "zzz" against the demo nodes is
downgraded to the unknown diagnostic. -/
theorem C8_not_found_path_witness :
    validateAndResolveCommand { type := CmdType.update_node, nodeId := some "zzz" } demoNodes =
      { type := CmdType.unknown, message := some (notFoundMsg "zzz" demoNodes) } :=
  C8_not_found_path.1 { type := CmdType.update_node, nodeId := some "zzz" } demoNodes "zzz"
    (Or.inr rfl) rfl (by decide) (by decide) (by decide)

/-- C2 counterexample: a connect draft missing its target reference passes
through the validator unchanged, so the emitted command has type
`connect_nodes` while its source identifier is not the id of any node in
the (empty) supplied list, and no downgrade to `unknown` happens. -/
theorem C2_counterexample :
    (validateAndResolveCommand
        { type := CmdType.connect_nodes, sourceNodeId := some "bogus" } []).type =
      CmdType.connect_nodes ∧
    (validateAndResolveCommand
        { type := CmdType.connect_nodes, sourceNodeId := some "bogus" } []).sourceNodeId =
      some "bogus" ∧
    ∀ n ∈ ([] : List NodeRec), n.id ≠ "bogus" :=
  ⟨by decide, by decide, by simp⟩

/-- C2 (amended): for drafts that actually carry their references (a
non-empty nodeId for delete/update, both non-empty source and target for
connect/disconnect) the validator either downgrades to `unknown` with a
diagnostic message or emits the same command type carrying only identifiers
of nodes present in the supplied list; drafts missing those fields pass
through unvalidated. -/
theorem C2_resolved_identifier_invariant (command : AICommand) (nodes : List NodeRec) :
    ((command.type = CmdType.delete_node ∨ command.type = CmdType.update_node) →
      truthy command.nodeId = true →
      ((validateAndResolveCommand command nodes).type = CmdType.unknown ∧
        (validateAndResolveCommand command nodes).message ≠ none) ∨
      ((validateAndResolveCommand command nodes).type = command.type ∧
        ∃ n ∈ nodes, (validateAndResolveCommand command nodes).nodeId = some n.id)) ∧
    ((command.type = CmdType.connect_nodes ∨ command.type = CmdType.disconnect_nodes) →
      truthy command.sourceNodeId = true → truthy command.targetNodeId = true →
      ((validateAndResolveCommand command nodes).type = CmdType.unknown ∧
        (validateAndResolveCommand command nodes).message ≠ none) ∨
      ((validateAndResolveCommand command nodes).type = command.type ∧
        (∃ a ∈ nodes, (validateAndResolveCommand command nodes).sourceNodeId = some a.id) ∧
        (∃ b ∈ nodes, (validateAndResolveCommand command nodes).targetNodeId = some b.id))) := by
  constructor
  · intro htype htr
    obtain ⟨s, hs, hsne⟩ := (truthy_iff command.nodeId).mp htr
    have hbranch : validateAndResolveCommand command nodes =
        match nodes.find? (fun n => n.id == s) with
        | some _ => command
        | none =>
          match validatorLabelLookup s nodes with
          | some n => { command with nodeId := some n.id }
          | none => { type := CmdType.unknown, message := some (notFoundMsg s nodes) } := by
      unfold validateAndResolveCommand
      rw [if_pos ⟨htype, htr⟩]
      simp only [hs, Option.getD_some]
    rcases hfind : nodes.find? (fun n => n.id == s) with _ | m
    · rcases hlook : validatorLabelLookup s nodes with _ | m
      · rw [hfind, hlook] at hbranch
        rw [hbranch]
        exact Or.inl ⟨rfl, Option.some_ne_none _⟩
      · rw [hfind, hlook] at hbranch
        rw [hbranch]
        exact Or.inr ⟨rfl, m, validatorLabelLookup_mem hlook, rfl⟩
    · rw [hfind] at hbranch
      rw [hbranch]
      refine Or.inr ⟨rfl, m, List.mem_of_find?_eq_some hfind, ?_⟩
      have hpm := @List.find?_some NodeRec (fun n => n.id == s) m nodes hfind
      rw [hs, eq_of_beq hpm]
  · intro htype hsrc htgt
    have hng : ¬((command.type = CmdType.delete_node ∨ command.type = CmdType.update_node) ∧
        truthy command.nodeId = true) := by
      rintro ⟨hdu, -⟩
      rcases htype with ht | ht <;> rcases hdu with hd | hd <;> rw [ht] at hd <;> cases hd
    have hbranch : validateAndResolveCommand command nodes =
        match connFind (command.sourceNodeId.getD "") nodes,
              connFind (command.targetNodeId.getD "") nodes with
        | some a, some b =>
          { command with sourceNodeId := some a.id, targetNodeId := some b.id }
        | _, _ =>
          { type := CmdType.unknown,
            message := some "Could not find one or both nodes to connect/disconnect." } := by
      unfold validateAndResolveCommand
      rw [if_neg hng, if_pos htype, if_pos ⟨hsrc, htgt⟩]
    rcases hfs : connFind (command.sourceNodeId.getD "") nodes with _ | a <;>
      rcases hft : connFind (command.targetNodeId.getD "") nodes with _ | b <;>
      rw [hfs, hft] at hbranch <;> rw [hbranch]
    · exact Or.inl ⟨rfl, Option.some_ne_none _⟩
    · exact Or.inl ⟨rfl, Option.some_ne_none _⟩
    · exact Or.inl ⟨rfl, Option.some_ne_none _⟩
    · exact Or.inr ⟨rfl, ⟨a, connFind_mem hfs, rfl⟩, ⟨b, connFind_mem hft, rfl⟩⟩

/-- C2 witness: a delete draft referencing the label text "end call" leaves
the validator carrying the id of a node present in the demo list. -/
theorem C2_resolved_identifier_invariant_witness :
    ((validateAndResolveCommand
        { type := CmdType.delete_node, nodeId := some "end call" } demoNodes).type =
        CmdType.unknown ∧
      (validateAndResolveCommand
        { type := CmdType.delete_node, nodeId := some "end call" } demoNodes).message ≠ none) ∨
    ((validateAndResolveCommand
        { type := CmdType.delete_node, nodeId := some "end call" } demoNodes).type =
        ({ type := CmdType.delete_node, nodeId := some "end call" } : AICommand).type ∧
      ∃ n ∈ demoNodes,
        (validateAndResolveCommand
          { type := CmdType.delete_node, nodeId := some "end call" } demoNodes).nodeId =
          some n.id) :=
  (C2_resolved_identifier_invariant
      { type := CmdType.delete_node, nodeId := some "end call" } demoNodes).1
    (Or.inl rfl) (by decide)

/-- C4 counterexample: the spec's cascade resolves the lower-cased text
"start" case-insensitively to the node labelled "Start", but the validator's
connect lookup knows only ids and case-sensitive labels, so the draft is
replaced by the unknown diagnostic instead of a resolved connect command. -/
theorem C4_counterexample :
    validateAndResolveCommand
        { type := CmdType.connect_nodes, sourceNodeId := some "start",
          targetNodeId := some "n1" } startNodes =
      { type := CmdType.unknown,
        message := some "Could not find one or both nodes to connect/disconnect." } ∧
    resolveReferenceSpec "start" startNodes =
      some { id := "n1", label := "Start", index := 0 } :=
  ⟨by decide, by decide⟩

/-- C4 (amended): for connect/disconnect drafts carrying both (non-empty)
references, each side is resolved independently by known id or case-sensitive
exact label — there is no case-insensitive or fuzzy tier — both resolved ids
are written back, and if either side fails the whole command becomes the
unknown diagnostic. -/
theorem C4_connect_resolution (command : AICommand) (nodes : List NodeRec)
    (htype : command.type = CmdType.connect_nodes ∨ command.type = CmdType.disconnect_nodes)
    (hsrc : truthy command.sourceNodeId = true) (htgt : truthy command.targetNodeId = true) :
    validateAndResolveCommand command nodes =
      match connFind (command.sourceNodeId.getD "") nodes,
            connFind (command.targetNodeId.getD "") nodes with
      | some s, some t =>
        { command with sourceNodeId := some s.id, targetNodeId := some t.id }
      | _, _ =>
        { type := CmdType.unknown,
          message := some "Could not find one or both nodes to connect/disconnect." } := by
  have hng : ¬((command.type = CmdType.delete_node ∨ command.type = CmdType.update_node) ∧
      truthy command.nodeId = true) := by
    rintro ⟨hdu, -⟩
    rcases htype with ht | ht <;> rcases hdu with hd | hd <;> rw [ht] at hd <;> cases hd
  unfold validateAndResolveCommand
  rw [if_neg hng, if_pos htype, if_pos ⟨hsrc, htgt⟩]

/-- C4 witness: a disconnect draft naming the target by its exact label
"Start" resolves both sides and writes back the canonical ids. -/
theorem C4_connect_resolution_witness :
    validateAndResolveCommand
        { type := CmdType.disconnect_nodes, sourceNodeId := some "n2",
          targetNodeId := some "Start" } demoNodes =
      { type := CmdType.disconnect_nodes, sourceNodeId := some "n2",
        targetNodeId := some "n1" } := by
  have h := C4_connect_resolution
    { type := CmdType.disconnect_nodes, sourceNodeId := some "n2",
      targetNodeId := some "Start" } demoNodes
    (Or.inr rfl) (by decide) (by decide)
  rw [h]
  decide

/-- C5 counterexample: for search text "the" every token is a stop word; the
claim's description then vacuously matches the first node in tier 1, while
the source falls back to the unfiltered token list and finds nothing. -/
theorem C5_counterexample :
    resolveByFuzzyLabelSpec "the" zzzNodes = some { id := "x", label := "zzz", index := 0 } ∧
    resolveByFuzzyLabel "the" zzzNodes = none :=
  ⟨by decide, by decide⟩

/-- C5 (amended): the source's fuzzy lookup equals the amended description —
tokenize on whitespace, discard stop words but fall back to the original
token list when that discards everything, tier 1 all remaining tokens, tier
2 any remaining token of length > 2 — and the worked fuzzy-delete example
holds. -/
theorem C5_fuzzy_resolution :
    (∀ (text : String) (nodes : List NodeRec),
      resolveByFuzzyLabel text nodes = resolveByFuzzyLabelAmended text nodes) ∧
    getEnhancedMockResponse "delete the end call node" demoNodes =
      { type := CmdType.delete_node, nodeId := some "n2" } := by
  refine ⟨?_, by decide⟩
  intro text nodes
  unfold resolveByFuzzyLabel resolveByFuzzyLabelAmended
  try dsimp only
  set ts := (jsSplitWs text).filter (fun t => t.length > 0) with hts
  set ks := ts.filter (fun t => !(stopWords.contains t)) with hks
  set F := if ks.length > 0 then ks else ts with hFdef
  by_cases hF : F.length > 0
  · simp only [if_pos hF]
  · simp only [if_neg hF]

end FlowSpec
